import Mathlib

/-!
Verification of the orzion-ai-api gateway core against its specification.

The development shallowly embeds the JavaScript source:

* `lib/rateLimit` (sliding-window rate limiter over a PostgreSQL table):
  the `rate_limits` table becomes a `Store` mapping string keys to
  `RLEntry` rows; `checkRateLimit` and `checkUserRateLimits` are embedded
  with explicit store passing.  Storage availability (the `pgClient` null
  check) and a storage error thrown inside the transaction are modelled by
  the `pg : Bool` and `err/aggErr : Option String` parameters; a thrown
  error rolls the transaction back, so the store is returned unchanged on
  that path.  Log output is ignored.
* `lib/apiKeyRotation` (credential pool): `API_KEY_CONFIG` becomes a
  `PoolMap`; `getCurrentApiKey`, `rotateApiKey`, `resetFailureCount` and
  `allKeysFailed` are embedded directly (throwing is modelled by `Option`).
* `lib/supabase` (`checkRateLimits`, `estimateTokens`): embedded directly;
  the external account-store row arrives as a `Validation` record.
* `api/v1/chat/[model]` (`makeApiCallWithRetry`): the upstream axios call
  is abstracted by an oracle `calls : Nat -> CallOutcome` giving each
  attempt's outcome; the retry loop is embedded with fuel `MAX_RETRIES`.

JavaScript conventions preserved: numeric truthiness (`0` is falsy) is
`(x != 0)`; `a || b` on possibly-empty strings is `jsOrS`; timestamps and
counters are `Nat`, configured limits are `Int` (the `-1` sentinel).
-/

/-- One row of the `rate_limits` table: `count` and `reset_time`. -/
structure RLEntry where
  count : Nat
  resetTime : Nat
deriving DecidableEq

/-- The `rate_limits` table, as a map from the `key` column to the row. -/
def Store : Type := String → Option RLEntry

/-- Result object returned by `checkRateLimit`; absent JS fields are `none`. -/
structure RLResult where
  allowed : Bool
  count : Int
  remaining : Int
  resetTime : Option Nat
  limit : Option Int
  error : Option String
deriving DecidableEq

/-- JS `a || b` for an optional string `a` (empty string is falsy). -/
def jsOrS (a : Option String) (b : String) : String :=
  match a with
  | some s => if s = "" then b else s
  | none => b

/-- `DELETE FROM rate_limits WHERE reset_time < now`. -/
def cleanupStore (now : Nat) (s : Store) : Store := fun k =>
  match s k with
  | some e => if e.resetTime < now then none else some e
  | none => none

/-- `INSERT ... ON key` / `UPDATE ... WHERE key`: set the row at `k`. -/
def storeSet (s : Store) (k : String) (e : RLEntry) : Store := fun k' =>
  if k' = k then some e else s k'

/-- The composite storage key `ratelimit:<key>:<window>`. -/
def dbKeyFor (key : String) (window : Nat) : String :=
  "ratelimit:" ++ key ++ ":" ++ toString window

/-- The result built at the end of the transaction from the new total. -/
def okResult (limit : Int) (currentCount : Nat) (resetTime : Nat) : RLResult :=
  { allowed := decide ((currentCount : Int) ≤ limit)
    count := (currentCount : Int)
    remaining := max 0 (limit - (currentCount : Int))
    resetTime := some resetTime
    limit := some limit
    error := none }

/-- Embedding of `checkRateLimit(key, limit, windowMs, increment)`.
`pg` is whether `pgClient` is non-null; `err` is `some msg` when a storage
operation inside the transaction throws with message `msg` (the transaction
then rolls back, leaving the store unchanged, and the catch block returns
the fail-open result); `now` is `Date.now()`. -/
def checkRateLimit (pg : Bool) (err : Option String) (s : Store) (key : String)
    (limit : Int) (windowMs : Nat) (increment : Nat) (now : Nat) : Store × RLResult :=
  if !pg then
    (s, { allowed := true, count := 0, remaining := limit,
          resetTime := some (now + windowMs), limit := none, error := none })
  else if limit = -1 then
    (s, { allowed := true, count := 0, remaining := -1,
          resetTime := none, limit := none, error := none })
  else
    match err with
    | some msg =>
      (s, { allowed := true, count := 0, remaining := limit,
            resetTime := some (now + windowMs), limit := none, error := some msg })
    | none =>
      match cleanupStore now s (dbKeyFor key (now / windowMs)) with
      | none =>
        (storeSet (cleanupStore now s) (dbKeyFor key (now / windowMs))
           ⟨increment, (now / windowMs + 1) * windowMs⟩,
         okResult limit increment ((now / windowMs + 1) * windowMs))
      | some entry =>
        (storeSet (cleanupStore now s) (dbKeyFor key (now / windowMs))
           ⟨entry.count + increment, entry.resetTime⟩,
         okResult limit (entry.count + increment) ((now / windowMs + 1) * windowMs))

/-- A sequence of `checkRateLimit` calls on one key, one at a time; each
element of `calls` is `(increment, now)`.  Returns the final store and the
list of per-call results. -/
def applyChecks (pg : Bool) (err : Option String) (s : Store) (key : String)
    (limit : Int) (windowMs : Nat) : List (Nat × Nat) → Store × List RLResult
  | [] => (s, [])
  | (inc, now) :: rest =>
    let p := checkRateLimit pg err s key limit windowMs inc now
    let q := applyChecks pg err p.1 key limit windowMs rest
    (q.1, p.2 :: q.2)

/-- Sum of the first `n` increments of a call sequence. -/
def prefSum : List (Nat × Nat) → Nat → Nat
  | _, 0 => 0
  | [], _ + 1 => 0
  | (inc, _) :: rest, n + 1 => inc + prefSum rest n

/-- The results `checkRateLimit` produces along a call sequence inside
window `w`, when the counter already holds `c`. -/
def expectedResults (limit : Int) (windowMs : Nat) (w : Nat) (c : Nat) :
    List (Nat × Nat) → List RLResult
  | [] => []
  | (inc, _) :: rest =>
    okResult limit (c + inc) ((w + 1) * windowMs) ::
      expectedResults limit windowMs w (c + inc) rest

/-- The three per-caller limit dimensions (`-1` = unlimited). -/
structure UserLimits where
  requestsPerSecond : Int
  dailyRequests : Int
  tokensPerMinute : Int
deriving DecidableEq

/-- The list of `checkRateLimit` calls `checkUserRateLimits` schedules:
`(key, limit, windowMs, increment)` per dimension.  A dimension is included
only when its limit is truthy (nonzero) and not `-1`; the token dimension
additionally requires a positive token increment. -/
def rlCheckSpecs (userId : String) (limits : UserLimits) (tokenIncrement : Nat) :
    List (String × Int × Nat × Nat) :=
  (if limits.requestsPerSecond ≠ 0 ∧ limits.requestsPerSecond ≠ -1 then
    [("user:" ++ userId ++ ":requests_per_second", limits.requestsPerSecond, 1000, 1)]
   else []) ++
  (if limits.dailyRequests ≠ 0 ∧ limits.dailyRequests ≠ -1 then
    [("user:" ++ userId ++ ":daily_requests", limits.dailyRequests, 24 * 60 * 60 * 1000, 1)]
   else []) ++
  (if limits.tokensPerMinute ≠ 0 ∧ limits.tokensPerMinute ≠ -1 ∧ 0 < tokenIncrement then
    [("user:" ++ userId ++ ":tokens_per_minute", limits.tokensPerMinute, 60 * 1000, tokenIncrement)]
   else [])

/-- Run the scheduled dimension checks, threading the store. -/
def runChecks (pg : Bool) (err : Option String) (s : Store) (now : Nat) :
    List (String × Int × Nat × Nat) → Store × List RLResult
  | [] => (s, [])
  | (k, limit, windowMs, inc) :: rest =>
    let p := checkRateLimit pg err s k limit windowMs inc now
    let q := runChecks pg err p.1 now rest
    (q.1, p.2 :: q.2)

/-- Result object of `checkUserRateLimits`; absent JS fields are `none`. -/
structure UserRLResult where
  allowed : Bool
  reason : Option String
  details : Option RLResult
  checks : Option (List RLResult)
  error : Option String
  limits : UserLimits
deriving DecidableEq

/-- Embedding of `checkUserRateLimits(userId, apiKeyId, limits, tokenIncrement)`.
`aggErr` is `some msg` when the aggregation itself throws (the outer catch:
fail-open). -/
def checkUserRateLimits (pg : Bool) (err : Option String) (aggErr : Option String)
    (s : Store) (userId : String) (limits : UserLimits) (tokenIncrement : Nat)
    (now : Nat) : Store × UserRLResult :=
  match aggErr with
  | some msg =>
    (s, { allowed := true, reason := none, details := none, checks := none,
          error := some msg, limits := limits })
  | none =>
    let p := runChecks pg err s now (rlCheckSpecs userId limits tokenIncrement)
    match p.2.find? (fun r => !r.allowed) with
    | some bad =>
      (p.1, { allowed := false, reason := some "rate_limit_exceeded",
              details := some bad, checks := none, error := none, limits := limits })
    | none =>
      (p.1, { allowed := true, reason := none, details := none,
              checks := some p.2, error := none, limits := limits })

/-- The `usage` object returned by `validate_api_key`. -/
structure Usage where
  requestsToday : Int
  tokensToday : Int
deriving DecidableEq

/-- The validation record `validateApiKey` produces for a valid key. -/
structure Validation where
  userId : String
  apiKeyId : String
  limits : UserLimits
  usage : Usage
deriving DecidableEq

/-- Result of the quota gate `checkRateLimits` (message strings omitted). -/
structure GateResult where
  allowed : Bool
  reason : Option String
  details : Option RLResult
  rateLimitInfo : Option UserRLResult
deriving DecidableEq

/-- Embedding of `checkRateLimits(validation, estimatedTokens)` from
`lib/supabase`: the rate-limiter aggregate first, then the database daily
backup check. -/
def checkRateLimits (pg : Bool) (err : Option String) (aggErr : Option String)
    (s : Store) (v : Validation) (estimatedTokens : Nat) (now : Nat) :
    Store × GateResult :=
  let p := checkUserRateLimits pg err aggErr s v.userId v.limits estimatedTokens now
  if p.2.allowed = false then
    (p.1, { allowed := false, reason := p.2.reason, details := p.2.details,
            rateLimitInfo := none })
  else if v.limits.dailyRequests ≠ -1 ∧ v.limits.dailyRequests ≤ v.usage.requestsToday then
    (p.1, { allowed := false, reason := some "daily_requests_exceeded_db",
            details := none, rateLimitInfo := none })
  else
    (p.1, { allowed := true, reason := none, details := none,
            rateLimitInfo := some p.2 })

/-- Embedding of `estimateTokens(text)`: `Math.ceil(text.length / 4)`. -/
def estimateTokens (text : String) : Nat :=
  (text.length + 3) / 4

/-- One element of the request `messages` array. -/
structure ChatMessage where
  role : String
  content : String
deriving DecidableEq

/-- `messages.map(m => m.content).join(' ')` from the chat handler. -/
def chatMessageText (messages : List ChatMessage) : String :=
  String.intercalate " " (messages.map ChatMessage.content)

/-- The chat handler's input-token estimate:
`estimateTokens(messageText + SYSTEM_PROMPTS[model])`, with the prompt
table abstracted as `systemPrompts`. -/
def chatInputTokens (systemPrompts : String → String) (model : String)
    (messages : List ChatMessage) : Nat :=
  estimateTokens (chatMessageText messages ++ systemPrompts model)

/-- One entry of `API_KEY_CONFIG`: credential list, rotation index,
consecutive-failure count. -/
structure PoolConfig where
  modelId : String
  keys : List String
  currentIndex : Nat
  failureCount : Nat
deriving DecidableEq

/-- The pool state: logical model name to configuration. -/
def PoolMap : Type := String → Option PoolConfig

/-- The initial `API_KEY_CONFIG` object, parameterised by the credential
lists read from the environment (`[...].filter(key => key)`). -/
def API_KEY_CONFIG (proKeys turboKeys miniKeys : List String) : PoolMap := fun m =>
  if m = "orzion-pro" then
    some { modelId := "qwen/qwen-2.5-72b-instruct:free", keys := proKeys,
           currentIndex := 0, failureCount := 0 }
  else if m = "orzion-turbo" then
    some { modelId := "meta-llama/llama-3.2-3b-instruct:free", keys := turboKeys,
           currentIndex := 0, failureCount := 0 }
  else if m = "orzion-mini" then
    some { modelId := "meta-llama/llama-3.2-3b-instruct:free", keys := miniKeys,
           currentIndex := 0, failureCount := 0 }
  else none

/-- The descriptor `getCurrentApiKey` returns. -/
structure KeyInfo where
  key : String
  keyIndex : Nat
  totalKeys : Nat
  modelId : String
deriving DecidableEq

/-- Embedding of `getCurrentApiKey(model)`: `none` models the thrown
configuration error when no keys are configured for the model. -/
def getCurrentApiKey (st : PoolMap) (model : String) : Option KeyInfo :=
  match st model with
  | none => none
  | some config =>
    if config.keys.length = 0 then none
    else some { key := config.keys.getD config.currentIndex ""
                keyIndex := config.currentIndex
                totalKeys := config.keys.length
                modelId := config.modelId }

/-- Embedding of `rotateApiKey(model, reason)`: advance the index
circularly and increment the failure count; a model without keys is left
untouched.  The reason only feeds the log. -/
def rotateApiKey (st : PoolMap) (model : String) (_reason : String) : PoolMap :=
  match st model with
  | none => st
  | some config =>
    if config.keys.length = 0 then st
    else fun m =>
      if m = model then
        some { config with
                 currentIndex := (config.currentIndex + 1) % config.keys.length
                 failureCount := config.failureCount + 1 }
      else st m

/-- Embedding of `resetFailureCount(model)`: zero the failure counter when
the model is configured. -/
def resetFailureCount (st : PoolMap) (model : String) : PoolMap :=
  match st model with
  | none => st
  | some config =>
    fun m => if m = model then some { config with failureCount := 0 } else st m

/-- Embedding of `allKeysFailed(model)`. -/
def allKeysFailed (st : PoolMap) (model : String) : Bool :=
  match st model with
  | none => true
  | some config =>
    if config.keys.length = 0 then true
    else decide (config.keys.length ≤ config.failureCount)

/-- The operations the `apiKeyRotation` module exposes on the pool state. -/
inductive PoolOp where
  | rotate (model reason : String)
  | reset (model : String)
  | getCurrent (model : String)
  | allFailed (model : String)
  | stats (model : String)
deriving DecidableEq

/-- Effect of one module operation on the shared pool state:
`getCurrentApiKey`, `allKeysFailed` and `getRotationStats` only read it. -/
def applyPoolOp (st : PoolMap) : PoolOp → PoolMap
  | .rotate m r => rotateApiKey st m r
  | .reset m => resetFailureCount st m
  | .getCurrent _ => st
  | .allFailed _ => st
  | .stats _ => st

/-- Effect of a sequence of module operations. -/
def applyPoolOps (st : PoolMap) : List PoolOp → PoolMap
  | [] => st
  | op :: ops => applyPoolOps (applyPoolOp st op) ops

/-- The pool invariant: a configured model with a non-empty credential
list has its current index inside the list. -/
def poolInv (st : PoolMap) : Prop :=
  ∀ m config, st m = some config → config.keys ≠ [] →
    config.currentIndex < config.keys.length

/-- An upstream failure as the retry loop's catch block sees it:
`responseStatus` is `error.response?.status`, `dataErrorMessage` is
`error.response?.data?.error?.message`, `code` is `error.code`, `message`
is `error.message`. -/
structure UpstreamError where
  responseStatus : Option Nat
  dataErrorMessage : Option String
  code : Option String
  message : String
deriving DecidableEq

/-- `error.response?.status || 0`. -/
def statusCodeOf (e : UpstreamError) : Nat :=
  match e.responseStatus with
  | some s => s
  | none => 0

/-- `error.response?.data?.error?.message || error.message`. -/
def errorMessageOf (e : UpstreamError) : String :=
  jsOrS e.dataErrorMessage e.message

/-- `error.code === 'ECONNABORTED' || error.code === 'ETIMEDOUT'`. -/
def isTimeout (e : UpstreamError) : Bool :=
  decide (e.code = some "ECONNABORTED" ∨ e.code = some "ETIMEDOUT")

/-- `ENOTFOUND`, `ECONNREFUSED` or `ECONNRESET`. -/
def isNetworkError (e : UpstreamError) : Bool :=
  decide (e.code = some "ENOTFOUND" ∨ e.code = some "ECONNREFUSED" ∨
    e.code = some "ECONNRESET")

/-- Is `pat` a contiguous sublist of the given list (JS `includes`)? -/
def hasSubList (pat : List Char) : List Char → Bool
  | [] => pat.isEmpty
  | c :: rest => pat.isPrefixOf (c :: rest) || hasSubList pat rest

/-- Does `message.toLowerCase()` contain `sub`?  Lowering is applied to
the character list of the message. -/
def lowerContains (message sub : String) : Bool :=
  hasSubList sub.toList (message.toList.map Char.toLower)

/-- The rotate-worthy classification `shouldRotate` of the retry loop. -/
def shouldRotate (e : UpstreamError) : Bool :=
  decide (statusCodeOf e = 429) ||
  decide (statusCodeOf e = 401) ||
  decide (statusCodeOf e = 403) ||
  decide (500 ≤ statusCodeOf e) ||
  isTimeout e ||
  isNetworkError e ||
  lowerContains (errorMessageOf e) "rate" ||
  lowerContains (errorMessageOf e) "limit" ||
  lowerContains (errorMessageOf e) "quota"

/-- The rotation reason string computed from the classified failure. -/
def reasonOf (e : UpstreamError) : String :=
  if statusCodeOf e = 429 then "rate_limit"
  else if statusCodeOf e = 401 then "unauthorized"
  else if statusCodeOf e = 403 then "forbidden"
  else if 500 ≤ statusCodeOf e then "server_error"
  else if isTimeout e then "timeout"
  else if isNetworkError e then "network_error"
  else "unknown_error"

/-- Outcome of one axios call to the upstream provider. -/
inductive CallOutcome where
  | valid (content : String) (completionTokens : Option Nat)
  | invalidStructure
  | httpError (e : UpstreamError)
deriving DecidableEq

/-- The error thrown on a structurally invalid 200 response. -/
def invalidStructureError : UpstreamError :=
  { responseStatus := none, dataErrorMessage := none, code := none,
    message := "Invalid response structure from OpenRouter API" }

/-- The configuration error `getCurrentApiKey` throws, as caught by the
retry loop. -/
def configErrorFor (model : String) : UpstreamError :=
  { responseStatus := none, dataErrorMessage := none, code := none,
    message := "No hay claves API configuradas para el modelo: " ++ model }

/-- `MAX_RETRIES` from the chat handler. -/
def MAX_RETRIES : Nat := 3

/-- The successful return value of `makeApiCallWithRetry`. -/
structure RetrySuccess where
  content : String
  apiKeyUsed : Nat
deriving DecidableEq

/-- One loop iteration body up to the catch: fetch the current credential
(throwing when unconfigured) and issue attempt `rc` of the upstream call. -/
def attemptOnce (calls : Nat → CallOutcome) (model : String) (st : PoolMap)
    (rc : Nat) : RetrySuccess ⊕ UpstreamError :=
  match getCurrentApiKey st model with
  | none => Sum.inr (configErrorFor model)
  | some info =>
    match calls rc with
    | .valid content _ => Sum.inl { content := content, apiKeyUsed := info.keyIndex + 1 }
    | .invalidStructure => Sum.inr invalidStructureError
    | .httpError e => Sum.inr e

/-- The `while (retryCount < MAX_RETRIES)` loop, with fuel.  Returns the
pool state, the final `retryCount`, `lastError` and the success, if any.
On a failure the loop rotates and retries exactly when the error is
rotate-worthy and attempts remain; otherwise it breaks. -/
def retryLoop (calls : Nat → CallOutcome) (model : String) :
    Nat → PoolMap → Nat → Option UpstreamError →
    PoolMap × Nat × Option UpstreamError × Option RetrySuccess
  | 0, st, rc, lastError => (st, rc, lastError, none)
  | fuel + 1, st, rc, lastError =>
    if rc < MAX_RETRIES then
      match attemptOnce calls model st rc with
      | Sum.inl s => (st, rc, lastError, some s)
      | Sum.inr e =>
        if shouldRotate e ∧ rc + 1 < MAX_RETRIES then
          retryLoop calls model fuel (rotateApiKey st model (reasonOf e)) (rc + 1) (some e)
        else (st, rc + 1, some e, none)
    else (st, rc, lastError, none)

/-- The failure object `makeApiCallWithRetry` returns after the loop. -/
structure RetryFailure where
  attempts : Nat
  lastStatusCode : Option Nat
  lastErrorMessage : Option String
  errorCode : Option String
  allFailed : Bool
  statusCode : Nat
deriving DecidableEq

/-- Return value of `makeApiCallWithRetry`. -/
inductive RetryResult where
  | ok (s : RetrySuccess)
  | exhausted (f : RetryFailure)
deriving DecidableEq

/-- `lastError?.response?.status || 503`. -/
def finalStatusCode (lastError : Option UpstreamError) : Nat :=
  match lastError with
  | none => 503
  | some e =>
    match e.responseStatus with
    | none => 503
    | some s => if s = 0 then 503 else s

/-- Embedding of `makeApiCallWithRetry(model, ...)`, with the upstream
responses given by the oracle `calls` (attempt number to outcome). -/
def makeApiCallWithRetry (calls : Nat → CallOutcome) (st : PoolMap)
    (model : String) : PoolMap × RetryResult :=
  let p := retryLoop calls model MAX_RETRIES st 0 none
  match p.2.2.2 with
  | some s => (p.1, RetryResult.ok s)
  | none =>
    (p.1, RetryResult.exhausted
      { attempts := p.2.1
        lastStatusCode := (p.2.2.1).bind UpstreamError.responseStatus
        lastErrorMessage := (p.2.2.1).map errorMessageOf
        errorCode := (p.2.2.1).bind UpstreamError.code
        allFailed := allKeysFailed p.1 model
        statusCode := finalStatusCode p.2.2.1 })

/-- Fixture: an HTTP 429 upstream failure. -/
def err429 : UpstreamError :=
  { responseStatus := some 429, dataErrorMessage := none, code := none,
    message := "Too Many Requests" }

/-- Fixture: an HTTP 400 upstream failure without rate/limit/quota wording. -/
def err400 : UpstreamError :=
  { responseStatus := some 400, dataErrorMessage := none, code := none,
    message := "Bad Request" }

/-- Fixture: a pool with three credentials configured for `orzion-pro`. -/
def pool3 : PoolMap := API_KEY_CONFIG ["k1", "k2", "k3"] [] []

/-! ## Helper lemmas -/

theorem storeSet_self (s : Store) (k : String) (e : RLEntry) :
    storeSet s k e k = some e := by
  unfold storeSet
  rw [if_pos rfl]

theorem window_upper (windowMs : Nat) (hw : 0 < windowMs) (now w : Nat)
    (h : now / windowMs = w) : now < (w + 1) * windowMs := by
  have h1 : now / windowMs < w + 1 := by omega
  exact (Nat.div_lt_iff_lt_mul hw).mp h1

theorem rotateApiKey_eq (st : PoolMap) (model reason : String) (config : PoolConfig)
    (h : st model = some config) (hk : config.keys ≠ []) :
    (rotateApiKey st model reason) model =
      some { config with
               currentIndex := (config.currentIndex + 1) % config.keys.length
               failureCount := config.failureCount + 1 } := by
  have h0 : config.keys.length ≠ 0 := fun hh => hk (List.length_eq_zero.mp hh)
  simp [rotateApiKey, h, h0]

theorem resetFailureCount_eq (st : PoolMap) (model : String) (config : PoolConfig)
    (h : st model = some config) :
    (resetFailureCount st model) model = some { config with failureCount := 0 } := by
  simp [resetFailureCount, h]

theorem allKeysFailed_eq (st : PoolMap) (model : String) (config : PoolConfig)
    (h : st model = some config) (hk : config.keys ≠ []) :
    allKeysFailed st model = decide (config.keys.length ≤ config.failureCount) := by
  have h0 : config.keys.length ≠ 0 := fun hh => hk (List.length_eq_zero.mp hh)
  simp [allKeysFailed, h, h0]

theorem rotate_iterate (model reason : String) (k : Nat) :
    ∀ (st : PoolMap) (config : PoolConfig),
      st model = some config → config.keys ≠ [] →
      config.currentIndex < config.keys.length →
      ((fun s => rotateApiKey s model reason)^[k] st) model =
        some { config with
                 currentIndex := (config.currentIndex + k) % config.keys.length
                 failureCount := config.failureCount + k } := by
  induction k with
  | zero =>
    intro st config h hk hlt
    simpa [Nat.mod_eq_of_lt hlt] using h
  | succ n ih =>
    intro st config h hk hlt
    rw [Function.iterate_succ_apply]
    have hlen : 0 < config.keys.length := List.length_pos.mpr hk
    have h1 := rotateApiKey_eq st model reason config h hk
    have h2 := ih (rotateApiKey st model reason)
      { config with
          currentIndex := (config.currentIndex + 1) % config.keys.length
          failureCount := config.failureCount + 1 }
      h1 hk (Nat.mod_lt _ hlen)
    rw [h2]
    obtain ⟨mid, ks, ci, fc⟩ := config
    simp only [Option.some.injEq, PoolConfig.mk.injEq]
    refine ⟨trivial, trivial, ?_, by omega⟩
    rw [Nat.mod_add_mod]
    congr 1
    omega

theorem poolInv_rotate (st : PoolMap) (model reason : String) (h : poolInv st) :
    poolInv (rotateApiKey st model reason) := by
  intro m config hm hk
  cases hst : st model with
  | none =>
    simp only [rotateApiKey, hst] at hm
    exact h m config hm hk
  | some c0 =>
    simp only [rotateApiKey, hst] at hm
    by_cases h0 : c0.keys.length = 0
    · rw [if_pos h0] at hm
      exact h m config hm hk
    · rw [if_neg h0] at hm
      by_cases hmm : m = model
      · rw [if_pos hmm] at hm
        obtain ⟨rfl⟩ : config = { c0 with
            currentIndex := (c0.currentIndex + 1) % c0.keys.length
            failureCount := c0.failureCount + 1 } := by
          exact (Option.some.injEq _ _ ▸ hm).symm
        exact Nat.mod_lt _ (Nat.pos_of_ne_zero h0)
      · rw [if_neg hmm] at hm
        exact h m config hm hk

theorem poolInv_reset (st : PoolMap) (model : String) (h : poolInv st) :
    poolInv (resetFailureCount st model) := by
  intro m config hm hk
  cases hst : st model with
  | none =>
    simp only [resetFailureCount, hst] at hm
    exact h m config hm hk
  | some c0 =>
    simp only [resetFailureCount, hst] at hm
    by_cases hmm : m = model
    · rw [if_pos hmm] at hm
      obtain ⟨rfl⟩ : config = { c0 with failureCount := 0 } := by
        exact (Option.some.injEq _ _ ▸ hm).symm
      exact h model c0 hst hk
    · rw [if_neg hmm] at hm
      exact h m config hm hk

theorem poolInv_op (st : PoolMap) (op : PoolOp) (h : poolInv st) :
    poolInv (applyPoolOp st op) := by
  cases op with
  | rotate m r => exact poolInv_rotate st m r h
  | reset m => exact poolInv_reset st m h
  | getCurrent m => exact h
  | allFailed m => exact h
  | stats m => exact h

theorem poolInv_ops (ops : List PoolOp) :
    ∀ st : PoolMap, poolInv st → poolInv (applyPoolOps st ops) := by
  induction ops with
  | nil => intro st h; exact h
  | cons op rest ih =>
    intro st h
    exact ih (applyPoolOp st op) (poolInv_op st op h)

/-! ## Claim theorems -/

/-- C6: for `limit = -1`, `checkRateLimit` always returns `allowed = true`
with `count = 0` and `remaining = -1`, and performs no read, write or
delete against the counter store: the returned store is exactly the input
store, and the result is independent of the storage-error oracle `err`
(the transaction is never entered). -/
theorem checkRateLimit_unlimited (err : Option String) (s : Store) (key : String)
    (windowMs increment now : Nat) :
    checkRateLimit true err s key (-1) windowMs increment now =
      (s, { allowed := true, count := 0, remaining := -1,
            resetTime := none, limit := none, error := none }) := rfl

/-- C10: `rotateApiKey` on a model with no configured credentials (unknown
model, or a configured model whose key list is empty) leaves the pool state
unchanged, and `allKeysFailed` returns `true` for such a model. -/
theorem rotateApiKey_no_keys (st : PoolMap) (model reason : String)
    (h : st model = none ∨ ∃ config, st model = some config ∧ config.keys = []) :
    rotateApiKey st model reason = st ∧ allKeysFailed st model = true := by
  rcases h with h | ⟨config, h, hk⟩
  · constructor
    · unfold rotateApiKey
      rw [h]
    · unfold allKeysFailed
      rw [h]
  · constructor
    · simp [rotateApiKey, h, hk]
    · simp [allKeysFailed, h, hk]

theorem rotateApiKey_no_keys_witness :
    rotateApiKey (fun _ => none) "orzion-pro" "rate_limit" = (fun _ => none) ∧
    allKeysFailed (fun _ => none) "orzion-pro" = true :=
  rotateApiKey_no_keys (fun _ => none) "orzion-pro" "rate_limit" (Or.inl rfl)

/-- C3: starting from index 0 with `N ≥ 1` credentials, each rotation
advances the index by one modulo `N` and increments the failure count, and
`N` consecutive rotations return the index to 0 while adding `N` failures;
`allKeysFailed` holds exactly when the failure count reaches `N`; and
`resetFailureCount` zeroes the failure count, keeping the index and making
`allKeysFailed` false for `N ≥ 1`. -/
theorem rotation_cycle (st : PoolMap) (model : String) (config : PoolConfig)
    (h : st model = some config) (hk : config.keys ≠ [])
    (hi : config.currentIndex = 0) :
    (∀ (reason : String) (st2 : PoolMap) (c2 : PoolConfig),
       st2 model = some c2 → c2.keys ≠ [] →
       (rotateApiKey st2 model reason) model =
         some { c2 with
                  currentIndex := (c2.currentIndex + 1) % c2.keys.length
                  failureCount := c2.failureCount + 1 }) ∧
    (((fun s => rotateApiKey s model "unknown")^[config.keys.length] st) model =
       some { config with
                currentIndex := 0
                failureCount := config.failureCount + config.keys.length }) ∧
    (∀ (st2 : PoolMap) (c2 : PoolConfig),
       st2 model = some c2 → c2.keys ≠ [] →
       (allKeysFailed st2 model = true ↔ c2.keys.length ≤ c2.failureCount)) ∧
    ((resetFailureCount st model) model = some { config with failureCount := 0 } ∧
     allKeysFailed (resetFailureCount st model) model = false) := by
  have hlen : 0 < config.keys.length := List.length_pos.mpr hk
  refine ⟨?_, ?_, ?_, ?_, ?_⟩
  · intro reason st2 c2 h2 hk2
    exact rotateApiKey_eq st2 model reason c2 h2 hk2
  · have := rotate_iterate model "unknown" config.keys.length st config h hk (hi ▸ hlen)
    rw [this]
    congr 2
    rw [hi]
    exact Nat.zero_add _ ▸ Nat.mod_self _
  · intro st2 c2 h2 hk2
    rw [allKeysFailed_eq st2 model c2 h2 hk2]
    exact decide_eq_true_iff
  · exact resetFailureCount_eq st model config h
  · rw [allKeysFailed_eq (resetFailureCount st model) model
      { config with failureCount := 0 } (resetFailureCount_eq st model config h) hk]
    refine decide_eq_false ?_
    intro hh
    exact hk (List.length_eq_zero.mp (Nat.le_zero.mp hh))

theorem rotation_cycle_witness :
    ((fun s => rotateApiKey s "orzion-pro" "unknown")^[3] pool3) "orzion-pro" =
      some { modelId := "qwen/qwen-2.5-72b-instruct:free", keys := ["k1", "k2", "k3"],
             currentIndex := 0, failureCount := 3 } :=
  (rotation_cycle pool3 "orzion-pro"
    { modelId := "qwen/qwen-2.5-72b-instruct:free", keys := ["k1", "k2", "k3"],
      currentIndex := 0, failureCount := 0 } rfl (by decide) rfl).2.1

/-- C7: the pool invariant (current index strictly below the key-list size
for every model with a non-empty credential list) holds in the initial
`API_KEY_CONFIG` state and is preserved by every sequence of module
operations; and of those operations only `rotateApiKey` and
`resetFailureCount` change the pool state — the read-only operations
return it unchanged. -/
theorem pool_index_invariant :
    (∀ proKeys turboKeys miniKeys : List String,
       poolInv (API_KEY_CONFIG proKeys turboKeys miniKeys)) ∧
    (∀ (ops : List PoolOp) (st : PoolMap), poolInv st → poolInv (applyPoolOps st ops)) ∧
    (∀ (st : PoolMap) (m : String),
       applyPoolOp st (PoolOp.getCurrent m) = st ∧
       applyPoolOp st (PoolOp.allFailed m) = st ∧
       applyPoolOp st (PoolOp.stats m) = st) := by
  refine ⟨?_, ?_, ?_⟩
  · intro proKeys turboKeys miniKeys m config hm hk
    unfold API_KEY_CONFIG at hm
    split at hm
    · injection hm with hm2
      subst hm2
      exact List.length_pos.mpr hk
    · split at hm
      · injection hm with hm2
        subst hm2
        exact List.length_pos.mpr hk
      · split at hm
        · injection hm with hm2
          subst hm2
          exact List.length_pos.mpr hk
        · simp at hm
  · intro ops st h
    exact poolInv_ops ops st h
  · intro st m
    exact ⟨rfl, rfl, rfl⟩

theorem pool_index_invariant_witness :
    poolInv (applyPoolOps (API_KEY_CONFIG ["k1", "k2", "k3"] ["t1"] [])
      [PoolOp.rotate "orzion-pro" "rate_limit", PoolOp.reset "orzion-turbo",
       PoolOp.getCurrent "orzion-mini"]) :=
  pool_index_invariant.2.1 _ _ (pool_index_invariant.1 ["k1", "k2", "k3"] ["t1"] [])

/-- C5: if a storage operation inside the rate-limit transaction errors,
`checkRateLimit` fails open — it returns `allowed = true` with the error
message in the result and the store unchanged (the transaction rolled
back); with the counter store unreachable (`pgClient` null) it likewise
returns `allowed = true`; and an error caught by the aggregate
`checkUserRateLimits` also yields `allowed = true` with the error message
attached, so a counter-store error is never surfaced as a rejection. -/
theorem rateLimit_fail_open :
    (∀ (s : Store) (key : String) (L : Int) (windowMs increment now : Nat) (msg : String),
       L ≠ -1 →
       checkRateLimit true (some msg) s key L windowMs increment now =
         (s, { allowed := true, count := 0, remaining := L,
               resetTime := some (now + windowMs), limit := none, error := some msg })) ∧
    (∀ (err : Option String) (s : Store) (key : String) (L : Int)
       (windowMs increment now : Nat),
       checkRateLimit false err s key L windowMs increment now =
         (s, { allowed := true, count := 0, remaining := L,
               resetTime := some (now + windowMs), limit := none, error := none })) ∧
    (∀ (pg : Bool) (err : Option String) (msg : String) (s : Store) (userId : String)
       (limits : UserLimits) (tokenIncrement now : Nat),
       (checkUserRateLimits pg err (some msg) s userId limits tokenIncrement now).2 =
         { allowed := true, reason := none, details := none, checks := none,
           error := some msg, limits := limits }) := by
  refine ⟨?_, ?_, ?_⟩
  · intro s key L windowMs increment now msg hL
    simp [checkRateLimit, hL]
  · intro err s key L windowMs increment now
    rfl
  · intro pg err msg s userId limits tokenIncrement now
    rfl

theorem rateLimit_fail_open_witness :
    checkRateLimit true (some "connection terminated") (fun _ => none) "user:42" 5 1000 1 0 =
      ((fun _ => none : Store),
       { allowed := true, count := 0, remaining := 5, resetTime := some (0 + 1000),
         limit := none, error := some "connection terminated" }) :=
  rateLimit_fail_open.1 (fun _ => none) "user:42" 5 1000 1 0 "connection terminated"
    (by decide)

theorem checkUserRateLimits_specs_congr (pg : Bool) (err aggErr : Option String)
    (s : Store) (u : String) (l l2 : UserLimits) (tok tok2 now : Nat)
    (h : rlCheckSpecs u l tok = rlCheckSpecs u l2 tok2) :
    (checkUserRateLimits pg err aggErr s u l tok now).2.allowed =
      (checkUserRateLimits pg err aggErr s u l2 tok2 now).2.allowed ∧
    (checkUserRateLimits pg err aggErr s u l tok now).2.details =
      (checkUserRateLimits pg err aggErr s u l2 tok2 now).2.details ∧
    (checkUserRateLimits pg err aggErr s u l tok now).1 =
      (checkUserRateLimits pg err aggErr s u l2 tok2 now).1 := by
  cases aggErr with
  | some msg => exact ⟨rfl, rfl, rfl⟩
  | none =>
    unfold checkUserRateLimits
    rw [h]
    rcases hf : (runChecks pg err s now (rlCheckSpecs u l2 tok2)).2.find?
        (fun r => !r.allowed) with _ | bad <;> simp [hf]

/-- C4: when the account's daily limit is not `-1` and its recorded
`requestsToday` already reached the limit, `checkRateLimits` denies with
reason `daily_requests_exceeded_db` even though the sliding-window rate
limiter itself allowed the request. -/
theorem checkRateLimits_daily_db_backup (pg : Bool) (err aggErr : Option String)
    (s : Store) (v : Validation) (estimatedTokens now : Nat)
    (hd : v.limits.dailyRequests ≠ -1)
    (hu : v.limits.dailyRequests ≤ v.usage.requestsToday)
    (hallow : (checkUserRateLimits pg err aggErr s v.userId v.limits
      estimatedTokens now).2.allowed = true) :
    (checkRateLimits pg err aggErr s v estimatedTokens now).2 =
      { allowed := false, reason := some "daily_requests_exceeded_db",
        details := none, rateLimitInfo := none } := by
  unfold checkRateLimits
  dsimp only
  rw [hallow]
  rw [if_neg (by simp)]
  rw [if_pos ⟨hd, hu⟩]

theorem checkRateLimits_daily_db_backup_witness :
    (checkRateLimits true none none (fun _ => none)
       { userId := "u", apiKeyId := "k",
         limits := { requestsPerSecond := -1, dailyRequests := 100, tokensPerMinute := -1 },
         usage := { requestsToday := 100, tokensToday := 0 } } 0 0).2 =
      { allowed := false, reason := some "daily_requests_exceeded_db",
        details := none, rateLimitInfo := none } :=
  checkRateLimits_daily_db_backup true none none (fun _ => none)
    { userId := "u", apiKeyId := "k",
      limits := { requestsPerSecond := -1, dailyRequests := 100, tokensPerMinute := -1 },
      usage := { requestsToday := 100, tokensToday := 0 } } 0 0
    (by decide) (by decide) (by decide)

/-- C9: a `requestsPerSecond` or `tokensPerMinute` limit equal to 0 is
falsy, so `checkUserRateLimits` schedules no check for that dimension —
the scheduled checks, and with them the allow/deny outcome, are the same
as with the `-1` (unlimited) sentinel; the token dimension is likewise
skipped when the token increment is 0; but `dailyRequests = 0` makes the
quota gate's database backup check deny every request whose recorded
`requestsToday` is at least 0. -/
theorem zero_limit_semantics :
    (∀ (u : String) (l : UserLimits) (tok : Nat), l.requestsPerSecond = 0 →
       rlCheckSpecs u l tok = rlCheckSpecs u { l with requestsPerSecond := -1 } tok) ∧
    (∀ (u : String) (l : UserLimits) (tok : Nat), l.tokensPerMinute = 0 →
       rlCheckSpecs u l tok = rlCheckSpecs u { l with tokensPerMinute := -1 } tok) ∧
    (∀ (u : String) (l : UserLimits),
       rlCheckSpecs u l 0 = rlCheckSpecs u { l with tokensPerMinute := -1 } 0) ∧
    (∀ (pg : Bool) (err aggErr : Option String) (s : Store) (u : String)
       (l : UserLimits) (tok now : Nat), l.requestsPerSecond = 0 →
       (checkUserRateLimits pg err aggErr s u l tok now).2.allowed =
         (checkUserRateLimits pg err aggErr s u { l with requestsPerSecond := -1 }
           tok now).2.allowed) ∧
    (∀ (pg : Bool) (err aggErr : Option String) (s : Store) (v : Validation)
       (tok now : Nat),
       v.limits.dailyRequests = 0 → 0 ≤ v.usage.requestsToday →
       (checkRateLimits pg err aggErr s v tok now).2.allowed = false) := by
  refine ⟨?_, ?_, ?_, ?_, ?_⟩
  · intro u l tok h
    simp [rlCheckSpecs, h]
  · intro u l tok h
    simp [rlCheckSpecs, h]
  · intro u l
    simp [rlCheckSpecs]
  · intro pg err aggErr s u l tok now h
    exact (checkUserRateLimits_specs_congr pg err aggErr s u l
      { l with requestsPerSecond := -1 } tok tok now (by simp [rlCheckSpecs, h])).1
  · intro pg err aggErr s v tok now h0 hT
    unfold checkRateLimits
    dsimp only
    rcases hA : (checkUserRateLimits pg err aggErr s v.userId v.limits tok now).2.allowed with _ | _
    · rw [if_pos rfl]
    · rw [if_neg (by simp)]
      rw [if_pos ⟨by rw [h0]; decide, by rw [h0]; exact hT⟩]

theorem zero_limit_semantics_witness :
    rlCheckSpecs "u" { requestsPerSecond := 0, dailyRequests := -1, tokensPerMinute := -1 } 5 =
      rlCheckSpecs "u" { requestsPerSecond := -1, dailyRequests := -1, tokensPerMinute := -1 } 5 ∧
    (checkRateLimits true none none (fun _ => none)
       { userId := "u", apiKeyId := "k",
         limits := { requestsPerSecond := -1, dailyRequests := 0, tokensPerMinute := -1 },
         usage := { requestsToday := 0, tokensToday := 0 } } 0 0).2.allowed = false :=
  ⟨zero_limit_semantics.1 "u"
     { requestsPerSecond := 0, dailyRequests := -1, tokensPerMinute := -1 } 5 rfl,
   zero_limit_semantics.2.2.2.2 true none none (fun _ => none)
     { userId := "u", apiKeyId := "k",
       limits := { requestsPerSecond := -1, dailyRequests := 0, tokensPerMinute := -1 },
       usage := { requestsToday := 0, tokensToday := 0 } } 0 0 rfl (by decide)⟩

theorem ceil_div_four (n : Nat) : ⌈(n : ℚ) / 4⌉₊ = (n + 3) / 4 := by
  rcases Nat.eq_zero_or_pos n with h | h
  · subst h
    simp
  · obtain ⟨j, hj⟩ : ∃ j, (n + 3) / 4 = j + 1 := ⟨(n + 3) / 4 - 1, by omega⟩
    rw [hj, Nat.ceil_eq_iff (by omega)]
    have h1 : j * 4 < n := by omega
    have h2 : n ≤ (j + 1) * 4 := by omega
    constructor
    · rw [lt_div_iff₀ (by norm_num : (0 : ℚ) < 4)]
      simpa using (by exact_mod_cast h1 : ((j : ℚ)) * 4 < (n : ℚ))
    · rw [div_le_iff₀ (by norm_num : (0 : ℚ) < 4)]
      exact_mod_cast h2

/-- C8: the chat handler's estimated input token count is the ceiling of
one quarter of the character length of the messages' contents joined by a
single space followed by the requested model's fixed system prompt. -/
theorem chatInputTokens_ceil (systemPrompts : String → String) (model : String)
    (messages : List ChatMessage) :
    chatInputTokens systemPrompts model messages =
      ⌈(((chatMessageText messages ++ systemPrompts model).length : ℚ)) / 4⌉₊ := by
  unfold chatInputTokens estimateTokens
  rw [ceil_div_four]

theorem cleanupStore_none (now : Nat) (s : Store) (k : String) (hs : s k = none) :
    cleanupStore now s k = none := by
  simp [cleanupStore, hs]

theorem cleanupStore_keep (now : Nat) (s : Store) (k : String) (e : RLEntry)
    (hs : s k = some e) (h : ¬ e.resetTime < now) :
    cleanupStore now s k = some e := by
  simp [cleanupStore, hs, h]

theorem checkRateLimit_fresh (s : Store) (key : String) (L : Int) (hL : L ≠ -1)
    (windowMs : Nat) (w inc now : Nat) (hnow : now / windowMs = w)
    (hs : s (dbKeyFor key w) = none) :
    checkRateLimit true none s key L windowMs inc now =
      (storeSet (cleanupStore now s) (dbKeyFor key w) ⟨inc, (w + 1) * windowMs⟩,
       okResult L inc ((w + 1) * windowMs)) := by
  have hc : cleanupStore now s (dbKeyFor key w) = none := cleanupStore_none now s _ hs
  simp [checkRateLimit, hnow, hc, hL]

theorem checkRateLimit_existing (s : Store) (key : String) (L : Int) (hL : L ≠ -1)
    (windowMs : Nat) (hw : 0 < windowMs) (w c inc now : Nat)
    (hnow : now / windowMs = w)
    (hs : s (dbKeyFor key w) = some ⟨c, (w + 1) * windowMs⟩) :
    checkRateLimit true none s key L windowMs inc now =
      (storeSet (cleanupStore now s) (dbKeyFor key w) ⟨c + inc, (w + 1) * windowMs⟩,
       okResult L (c + inc) ((w + 1) * windowMs)) := by
  have hlt : now < (w + 1) * windowMs := window_upper windowMs hw now w hnow
  have hc : cleanupStore now s (dbKeyFor key w) = some ⟨c, (w + 1) * windowMs⟩ :=
    cleanupStore_keep now s _ _ hs (by show ¬ (w + 1) * windowMs < now; omega)
  simp [checkRateLimit, hnow, hc, hL]

theorem applyChecks_existing (key : String) (L : Int) (hL : L ≠ -1) (windowMs : Nat)
    (hw : 0 < windowMs) (w : Nat) :
    ∀ (calls : List (Nat × Nat)) (s : Store) (c : Nat),
      (∀ p ∈ calls, p.2 / windowMs = w) →
      s (dbKeyFor key w) = some ⟨c, (w + 1) * windowMs⟩ →
      (applyChecks true none s key L windowMs calls).2 =
        expectedResults L windowMs w c calls := by
  intro calls
  induction calls with
  | nil =>
    intro s c _ _
    rfl
  | cons p rest ih =>
    intro s c hwin hs
    obtain ⟨inc, now⟩ := p
    have hnow : now / windowMs = w := hwin (inc, now) (by simp)
    unfold applyChecks
    dsimp only
    rw [checkRateLimit_existing s key L hL windowMs hw w c inc now hnow hs]
    unfold expectedResults
    dsimp only
    congr 1
    exact ih (storeSet (cleanupStore now s) (dbKeyFor key w) ⟨c + inc, (w + 1) * windowMs⟩)
      (c + inc) (fun q hq => hwin q (by simp [hq])) (storeSet_self _ _ _)

theorem applyChecks_results (key : String) (L : Int) (hL : L ≠ -1) (windowMs : Nat)
    (hw : 0 < windowMs) (w : Nat) (s0 : Store) (calls : List (Nat × Nat))
    (hwin : ∀ p ∈ calls, p.2 / windowMs = w)
    (h0 : s0 (dbKeyFor key w) = none) :
    (applyChecks true none s0 key L windowMs calls).2 =
      expectedResults L windowMs w 0 calls := by
  cases calls with
  | nil => rfl
  | cons p rest =>
    obtain ⟨inc, now⟩ := p
    have hnow : now / windowMs = w := hwin (inc, now) (by simp)
    unfold applyChecks
    dsimp only
    rw [checkRateLimit_fresh s0 key L hL windowMs w inc now hnow h0]
    unfold expectedResults
    dsimp only
    rw [Nat.zero_add]
    congr 1
    exact applyChecks_existing key L hL windowMs hw w rest
      (storeSet (cleanupStore now s0) (dbKeyFor key w) ⟨inc, (w + 1) * windowMs⟩)
      inc (fun q hq => hwin q (by simp [hq])) (storeSet_self _ _ _)

theorem expectedResults_length (L : Int) (windowMs w : Nat) :
    ∀ (calls : List (Nat × Nat)) (c : Nat),
      (expectedResults L windowMs w c calls).length = calls.length := by
  intro calls
  induction calls with
  | nil =>
    intro c
    rfl
  | cons p rest ih =>
    intro c
    obtain ⟨inc, now⟩ := p
    simp [expectedResults, ih]

theorem expectedResults_getElem (L : Int) (windowMs w : Nat) :
    ∀ (calls : List (Nat × Nat)) (c k : Nat), k < calls.length →
      (expectedResults L windowMs w c calls)[k]? =
        some (okResult L (c + prefSum calls (k + 1)) ((w + 1) * windowMs)) := by
  intro calls
  induction calls with
  | nil =>
    intro c k h
    simp at h
  | cons p rest ih =>
    intro c k hk
    obtain ⟨inc, now⟩ := p
    cases k with
    | zero =>
      simp [expectedResults, prefSum]
    | succ n =>
      have hn : n < rest.length := by simpa using hk
      simp only [expectedResults, List.getElem?_cons_succ]
      rw [ih (c + inc) n hn]
      simp only [prefSum]
      rw [Nat.add_assoc]

theorem prefSum_mono : ∀ (calls : List (Nat × Nat)) (j k : Nat), j ≤ k →
    prefSum calls j ≤ prefSum calls k := by
  intro calls
  induction calls with
  | nil =>
    intro j k hjk
    cases j <;> cases k <;> simp [prefSum]
  | cons p rest ih =>
    intro j k hjk
    obtain ⟨inc, now⟩ := p
    cases j with
    | zero =>
      cases k with
      | zero => exact le_refl _
      | succ n => simp [prefSum]
    | succ m =>
      cases k with
      | zero => omega
      | succ n =>
        simp only [prefSum]
        exact Nat.add_le_add_left (ih m n (by omega)) inc

/-- C1: for every limit `L ≠ -1` and every sequence of increments applied
one at a time inside window `w` of one key, starting with no counter row,
the k-th `checkRateLimit` result has `count` equal to the cumulative sum
of the first k+1 increments, allows exactly when that cumulative count is
at most `L`, and reports `remaining = max 0 (L - count)`; and once one
result's cumulative count exceeds `L`, every later check in the window is
denied. -/
theorem checkRateLimit_window_law (key : String) (L : Int) (hL : L ≠ -1)
    (windowMs : Nat) (hw : 0 < windowMs) (w : Nat) (s0 : Store)
    (calls : List (Nat × Nat))
    (hwin : ∀ p ∈ calls, p.2 / windowMs = w)
    (h0 : s0 (dbKeyFor key w) = none) :
    (∀ (k : Nat) (r : RLResult),
       ((applyChecks true none s0 key L windowMs calls).2)[k]? = some r →
       r.count = (prefSum calls (k + 1) : Int) ∧
       (r.allowed = true ↔ (prefSum calls (k + 1) : Int) ≤ L) ∧
       r.remaining = max 0 (L - (prefSum calls (k + 1) : Int))) ∧
    (∀ (j k : Nat) (rj rk : RLResult), j ≤ k →
       ((applyChecks true none s0 key L windowMs calls).2)[j]? = some rj →
       ((applyChecks true none s0 key L windowMs calls).2)[k]? = some rk →
       L < rj.count → rk.allowed = false) := by
  have hres := applyChecks_results key L hL windowMs hw w s0 calls hwin h0
  constructor
  · intro k r hr
    rw [hres] at hr
    have hk : k < calls.length := by
      rcases List.getElem?_eq_some.mp hr with ⟨hlt, _⟩
      rwa [expectedResults_length] at hlt
    rw [expectedResults_getElem L windowMs w calls 0 k hk] at hr
    injection hr with hr2
    subst hr2
    refine ⟨by simp [okResult], ?_, by simp [okResult]⟩
    simp [okResult]
  · intro j k rj rk hjk hrj hrk hL2
    rw [hres] at hrj hrk
    have hj : j < calls.length := by
      rcases List.getElem?_eq_some.mp hrj with ⟨hlt, _⟩
      rwa [expectedResults_length] at hlt
    have hk : k < calls.length := by
      rcases List.getElem?_eq_some.mp hrk with ⟨hlt, _⟩
      rwa [expectedResults_length] at hlt
    rw [expectedResults_getElem L windowMs w calls 0 j hj] at hrj
    rw [expectedResults_getElem L windowMs w calls 0 k hk] at hrk
    injection hrj with hrj2
    injection hrk with hrk2
    subst hrj2
    subst hrk2
    simp only [okResult] at hL2 ⊢
    have hmono : (prefSum calls (j + 1) : Int) ≤ (prefSum calls (k + 1) : Int) := by
      exact_mod_cast prefSum_mono calls (j + 1) (k + 1) (by omega)
    simp only [decide_eq_false_iff_not]
    omega

theorem checkRateLimit_window_law_witness :
    ((applyChecks true none (fun _ => none) "u" 2 1000 [(1, 10), (1, 20), (1, 900)]).2)[2]? =
      some (okResult 2 3 1000) ∧
    ((okResult 2 3 1000).allowed = true ↔ (prefSum [(1, 10), (1, 20), (1, 900)] 3 : Int) ≤ 2) :=
  ⟨by decide,
   ((checkRateLimit_window_law "u" 2 (by decide) 1000 (by decide) 0 (fun _ => none)
       [(1, 10), (1, 20), (1, 900)] (by decide) rfl).1 2 (okResult 2 3 1000)
       (by decide)).2.1⟩

/-- C2: an upstream failure triggers credential rotation and another
attempt exactly when it is rotate-worthy — HTTP status 429, 401, 403 or
at least 500, a connection/timeout error code, or a message containing
"rate", "limit" or "quota" case-insensitively — and fewer than
`MAX_RETRIES = 3` attempts have been made; any other failure breaks the
loop at once.  Concretely, HTTP 429 on three consecutive attempts yields
an exhausted result with `attempts = 3` and last status 429 after two
rotations, while a single HTTP 400 yields an exhausted result with
`attempts = 1` and the pool unchanged. -/
theorem retry_rotation_policy :
    (∀ e : UpstreamError,
       shouldRotate e = true ↔
         (statusCodeOf e = 429 ∨ statusCodeOf e = 401 ∨ statusCodeOf e = 403 ∨
          500 ≤ statusCodeOf e ∨
          e.code = some "ECONNABORTED" ∨ e.code = some "ETIMEDOUT" ∨
          e.code = some "ENOTFOUND" ∨ e.code = some "ECONNREFUSED" ∨
          e.code = some "ECONNRESET" ∨
          lowerContains (errorMessageOf e) "rate" = true ∨
          lowerContains (errorMessageOf e) "limit" = true ∨
          lowerContains (errorMessageOf e) "quota" = true)) ∧
    (∀ (fuel : Nat) (st : PoolMap) (rc : Nat) (lastError : Option UpstreamError)
       (e : UpstreamError) (calls : Nat → CallOutcome) (model : String),
       rc < MAX_RETRIES →
       attemptOnce calls model st rc = Sum.inr e →
       retryLoop calls model (fuel + 1) st rc lastError =
         (if shouldRotate e ∧ rc + 1 < MAX_RETRIES then
            retryLoop calls model fuel (rotateApiKey st model (reasonOf e)) (rc + 1)
              (some e)
          else (st, rc + 1, some e, none))) ∧
    ((makeApiCallWithRetry (fun _ => CallOutcome.httpError err429) pool3 "orzion-pro").2 =
       RetryResult.exhausted
         { attempts := 3, lastStatusCode := some 429,
           lastErrorMessage := some "Too Many Requests", errorCode := none,
           allFailed := false, statusCode := 429 }) ∧
    ((makeApiCallWithRetry (fun _ => CallOutcome.httpError err429) pool3 "orzion-pro").1
       "orzion-pro" =
       some { modelId := "qwen/qwen-2.5-72b-instruct:free", keys := ["k1", "k2", "k3"],
              currentIndex := 2, failureCount := 2 }) ∧
    ((makeApiCallWithRetry (fun _ => CallOutcome.httpError err400) pool3 "orzion-pro").1 =
       pool3 ∧
     (makeApiCallWithRetry (fun _ => CallOutcome.httpError err400) pool3 "orzion-pro").2 =
       RetryResult.exhausted
         { attempts := 1, lastStatusCode := some 400,
           lastErrorMessage := some "Bad Request", errorCode := none,
           allFailed := false, statusCode := 400 }) := by
  refine ⟨?_, ?_, ?_, ?_, rfl, ?_⟩
  · intro e
    simp only [shouldRotate, isTimeout, isNetworkError, Bool.or_eq_true,
      decide_eq_true_eq]
    tauto
  · intro fuel st rc lastError e calls model hrc hatt
    conv_lhs => rw [retryLoop]
    rw [if_pos hrc, hatt]
  · rfl
  · rfl
  · rfl

theorem retry_rotation_policy_witness :
    retryLoop (fun _ => CallOutcome.httpError err429) "orzion-pro" 3 pool3 0 none =
      (if shouldRotate err429 ∧ 0 + 1 < MAX_RETRIES then
         retryLoop (fun _ => CallOutcome.httpError err429) "orzion-pro" 2
           (rotateApiKey pool3 "orzion-pro" (reasonOf err429)) (0 + 1) (some err429)
       else (pool3, 0 + 1, some err429, none)) :=
  retry_rotation_policy.2.1 2 pool3 0 none err429
    (fun _ => CallOutcome.httpError err429) "orzion-pro" (by decide) rfl
